import Mathlib

/-! Verification development for the COSMOS audio-reactive particle visualizer.

We give a shallow embedding, over exact rational arithmetic, of

* the two revisions of the procedural shape generator
  `getShapePositions` (src/utils/mathShapes.ts as pasted in App.tsx),
* the per-frame shape-morphing / particle-integration logic of the two
  revisions of `VisualizerScene` (src/components/VisualizerScene.tsx), and
* the treble feature extraction of the frame loop.

JavaScript numbers are modelled as rationals.  The transcendental library
functions (`Math.sin`, `Math.cos`, `Math.acos`, `Math.sqrt`, `Math.PI`) are
abstract parameters collected in a `MathOracle`; the partial operations that
produce NaN in JavaScript — division when the denominator is zero, `acos`
outside `[-1, 1]`, `sqrt` of a negative — are modelled in `Option`, with
`none` standing for NaN.  `Math.random()` draws are explicit streams: the
generator receives `R : ℕ → ℕ → ℚ` where `R i j` is the `j`-th call to
`Math.random()` made during loop iteration `i`. -/

namespace Cosmos

/-- Abstract oracle for the JavaScript math library: `pi` is `Math.PI`,
`sin`/`cos` are `Math.sin`/`Math.cos`, `acosVal x` is the value of
`Math.acos x` on `[-1,1]`, and `sqrtVal x` the value of `Math.sqrt x` on
`[0, ∞)` (outside those domains the wrappers below return NaN). -/
structure MathOracle where
  pi : ℚ
  sin : ℚ → ℚ
  cos : ℚ → ℚ
  acosVal : ℚ → ℚ
  sqrtVal : ℚ → ℚ

/-- The facts about `Math.sqrt` the definedness proofs need: it is
nonnegative on nonnegative inputs and at least `1` on inputs at least `1`
(both true of the real square root). -/
def MathOracle.Good (M : MathOracle) : Prop :=
  (∀ x : ℚ, 0 ≤ x → 0 ≤ M.sqrtVal x) ∧ (∀ x : ℚ, 1 ≤ x → 1 ≤ M.sqrtVal x)

/-- JavaScript division: `a / b`, NaN (here `none`) when the denominator is
zero and the numerator is zero, ±Infinity when only the denominator is; both
non-finite outcomes are collapsed to `none`. -/
def jsdiv (a b : ℚ) : Option ℚ := if b = 0 then none else some (a / b)

/-- JavaScript `Math.acos`: NaN outside `[-1, 1]`. -/
def jsacos (M : MathOracle) (x : ℚ) : Option ℚ :=
  if -1 ≤ x ∧ x ≤ 1 then some (M.acosVal x) else none

/-- JavaScript `Math.sqrt` (also `Math.pow (·, 0.5)`): NaN on negatives. -/
def jsqrt (M : MathOracle) (x : ℚ) : Option ℚ :=
  if 0 ≤ x then some (M.sqrtVal x) else none

/-- JavaScript `Math.floor` on a finite number. -/
def jsfloor (x : ℚ) : ℚ := (⌊x⌋ : ℚ)

/-- JavaScript `Math.round` on a finite number (round half towards +∞). -/
def jsround (x : ℚ) : ℚ := (⌊x + 1/2⌋ : ℚ)

/-- The helper `map` from mathShapes.ts: maps `val ∈ [0,1]` affinely onto
`[lo, hi]` (`const map = (val, min, max) => min + val * (max - min)`). -/
def map (val lo hi : ℚ) : ℚ := lo + val * (hi - lo)

/-- three.js `Vector3.setFromSphericalCoords radius phi theta`. -/
def setFromSphericalCoords (M : MathOracle) (radius phi theta : ℚ) : ℚ × ℚ × ℚ :=
  (M.sin phi * radius * M.sin theta, M.cos phi * radius, M.sin phi * radius * M.cos theta)

/-- three.js `Vector3.multiplyScalar`. -/
def multiplyScalar (s : ℚ) (p : ℚ × ℚ × ℚ) : ℚ × ℚ × ℚ :=
  (s * p.1, s * p.2.1, s * p.2.2)

/-! ### Shape branches

Each `case` of the `switch (type)` statement becomes one definition
producing the final value of `dummy` for particle `i` (an
`Option (ℚ × ℚ × ℚ)`, `none` when some sub-expression is NaN).  Every
branch of the source writes all three coordinates of `dummy`, so no state
leaks between iterations through `dummy`. -/

/-- `case SPHERE` (identical in both revisions). -/
def sphereCase (M : MathOracle) (chaosLevel r1 r2 r3 : ℚ) : Option (ℚ × ℚ × ℚ) := do
  let theta := 2 * M.pi * r1
  let phi ← jsacos M (2 * r2 - 1)
  let radius := 10 + (r3 * chaosLevel * 5)
  some (setFromSphericalCoords M radius phi theta)

/-- `case GALAXY_SPIRAL` (identical in both revisions); `t = i / count`. -/
def galaxyCase (M : MathOracle) (count : ℕ) (chaosLevel r1 r2 r3 : ℚ) (i : ℕ) :
    Option (ℚ × ℚ × ℚ) := do
  let t ← jsdiv (i : ℚ) (count : ℚ)
  let arms : ℚ := 3 + jsfloor (chaosLevel * 4)
  let spin := t * arms * M.pi * 2
  let sq ← jsqrt M r1
  let distance := sq * 20
  let q ← jsdiv (jsfloor (r2 * arms)) arms
  let armOffset := q * M.pi * 2
  some (M.cos (spin + armOffset) * distance,
        (r3 - 1/2) * (distance * (2/10)),
        M.sin (spin + armOffset) * distance)

/-- One explicit-Euler step of the Lorenz system with `dt = 0.005`,
`σ = 10`, `ρ = 28`, `β = 8/3` (all three derivatives are computed from the
old state before any coordinate is updated, exactly as in the source). -/
def lorenzStep (p : ℚ × ℚ × ℚ) : ℚ × ℚ × ℚ :=
  let dt : ℚ := 5/1000
  let sigma : ℚ := 10
  let rho : ℚ := 28
  let beta : ℚ := 8/3
  let dx := sigma * (p.2.1 - p.1) * dt
  let dy := (p.1 * (rho - p.2.2) - p.2.1) * dt
  let dz := (p.1 * p.2.1 - beta * p.2.2) * dt
  (p.1 + dx, p.2.1 + dy, p.2.2 + dz)

/-- The Lorenz trajectory of revision 1, integrated from the fixed start
`(0.1, 0, 0)`. -/
def lorenzTraj (n : ℕ) : ℚ × ℚ × ℚ := lorenzStep^[n] (1/10, 0, 0)

/-- `case LORENZ_ATTRACTOR` of revision 1: fast-forward
`steps = 100 + i % 2000` Euler steps from `(0.1, 0, 0)`, then
`dummy.set(x, y, z - 25)` and `multiplyScalar 0.8`.  The three random draws
`r1, r2, r3` and `chaosLevel` are not consulted. -/
def lorenzCase1 (i : ℕ) : ℚ × ℚ × ℚ :=
  let p := lorenzTraj (100 + i % 2000)
  multiplyScalar (8/10) (p.1, p.2.1, p.2.2 - 25)

/-- `case MOBIUS_STRIP` (identical in both revisions). -/
def mobiusCase (M : MathOracle) (r1 r2 : ℚ) : Option (ℚ × ℚ × ℚ) :=
  let u := r1 * M.pi * 2
  let v := map r2 (-1) 1
  let radius : ℚ := 10
  some ((radius + v/2 * M.cos (u/2)) * M.cos u,
        (radius + v/2 * M.cos (u/2)) * M.sin u,
        v/2 * M.sin (u/2) * 5)

/-- `case CARDIOID_HEART` (identical in both revisions). -/
def cardioidCase (M : MathOracle) (r1 r2 : ℚ) : Option (ℚ × ℚ × ℚ) :=
  let u := r1 * M.pi
  let v := r2 * M.pi * 2
  let scale : ℚ := 15/10
  some (scale * 16 * (M.sin v)^3 * M.sin u,
        scale * (13 * M.cos v - 5 * M.cos (2*v) - 2 * M.cos (3*v) - M.cos (4*v)),
        scale * 16 * (M.sin v)^3 * M.cos u)

/-- `case DNA_HELIX` (identical in both revisions); `t = i / count`. -/
def dnaCase (M : MathOracle) (count : ℕ) (chaosLevel r3 : ℚ) (i : ℕ) :
    Option (ℚ × ℚ × ℚ) := do
  let t ← jsdiv (i : ℚ) (count : ℚ)
  let turns : ℚ := 5
  let h := map t (-15) 15
  let angle := t * M.pi * 2 * turns
  let radius : ℚ := 6
  let strand : ℚ := if i % 2 = 0 then 0 else M.pi
  some (M.cos (angle + strand) * radius + (r3 - 1/2) * chaosLevel * 2,
        h * 2,
        M.sin (angle + strand) * radius + (r3 - 1/2) * chaosLevel * 2)

/-- The `snap` closure of `case MENGER_SPONGE_APPROX`: with probability
`1 - chaosLevel` (draw `rnd`) round to the nearest multiple of
`step = size / 3 = 20 / 3`. -/
def mengerSnap (chaosLevel val rnd : ℚ) : ℚ :=
  if rnd > chaosLevel then jsround (val / (20/3)) * (20/3) else val

/-- `case MENGER_SPONGE_APPROX` (identical in both revisions); the three
`snap` calls consume the extra draws `r4, r5, r6` in order. -/
def mengerCase (chaosLevel r1 r2 r3 r4 r5 r6 : ℚ) : Option (ℚ × ℚ × ℚ) :=
  some (mengerSnap chaosLevel (map r1 (-20) 20) r4,
        mengerSnap chaosLevel (map r2 (-20) 20) r5,
        mengerSnap chaosLevel (map r3 (-20) 20) r6)

/-- `case PENROSE_TRIANGLE_APPROX` (identical in both revisions); draw `r4`
is the `Math.random()` for `pos`, `r5` the first jitter draw, `r6` the
second (used by leg 0 only). -/
def penroseCase (chaosLevel r4 r5 r6 : ℚ) (i : ℕ) : Option (ℚ × ℚ × ℚ) :=
  let pos := map r4 (-10) 10
  let thickness := 2 + chaosLevel
  if i % 3 = 0 then
    some (pos, -10 + (r6 - 1/2) * thickness, 0 + (r5 - 1/2) * thickness)
  else if i % 3 = 1 then
    some (10 - (pos + 10)/2, -10 + (pos + 10) * (866/1000), 0 + (r5 - 1/2) * thickness)
  else
    some (-10 + (pos + 10)/2, -10 + (pos + 10) * (866/1000), 0 + (r5 - 1/2) * thickness)

/-- `case TORUS` (identical in both revisions). -/
def torusCase (M : MathOracle) (chaosLevel r1 r2 : ℚ) : Option (ℚ × ℚ × ℚ) :=
  let bigR : ℚ := 15
  let r : ℚ := 5 + chaosLevel * 3
  let u := r1 * M.pi * 2
  let v := r2 * M.pi * 2
  some ((bigR + r * M.cos v) * M.cos u,
        (bigR + r * M.cos v) * M.sin u,
        r * M.sin v)

/-- `case KLEIN_BOTTLE` (identical in both revisions). -/
def kleinCase (M : MathOracle) (r1 r2 : ℚ) : Option (ℚ × ℚ × ℚ) :=
  let u := r1 * M.pi * 2
  let v := r2 * M.pi * 2
  let rTube : ℚ := 6
  let cU2 := M.cos (u/2)
  let sU2 := M.sin (u/2)
  let sV := M.sin v
  let s2V := M.sin (2*v)
  let temp := rTube + cU2 * sV - sU2 * s2V
  some (multiplyScalar 2 (temp * M.cos u, sU2 * sV + cU2 * s2V, temp * M.sin u))

/-- The `snap` closure of `case VOXEL_GRID`: round to the nearest multiple
of `stepSize = (25 * 2) / 6`. -/
def voxelSnap (v : ℚ) : ℚ := jsround (v / ((25 * 2) / 6)) * ((25 * 2) / 6)

/-- `case VOXEL_GRID` (identical in both revisions); jitter draws
`r4, r5, r6`. -/
def voxelCase (chaosLevel r1 r2 r3 r4 r5 r6 : ℚ) : Option (ℚ × ℚ × ℚ) :=
  some (voxelSnap (map r1 (-25) 25) + (r4 - 1/2) * chaosLevel * 2,
        voxelSnap (map r2 (-25) 25) + (r5 - 1/2) * chaosLevel * 2,
        voxelSnap (map r3 (-25) 25) + (r6 - 1/2) * chaosLevel * 2)

/-- `case CYBER_FLOWER` (identical in both revisions). -/
def cyberFlowerCase (M : MathOracle) (chaosLevel r1 r2 : ℚ) (i : ℕ) :
    Option (ℚ × ℚ × ℚ) :=
  let theta := r1 * M.pi * 2
  let phi := r2 * M.pi
  let k : ℚ := 4 + jsfloor (chaosLevel * 3)
  let rBase : ℚ := 15
  let rVar := 10 * M.sin (k * theta) * M.sin (k * phi)
  let r := rBase + rVar
  let p := setFromSphericalCoords M r phi theta
  some (if i % 10 = 0 then multiplyScalar (2/10) p else p)

/-- `case LIQUID_WAVE` (identical in both revisions); scatter draws
`r4, r5`.  `cols = Math.floor (Math.sqrt count)`, `row = Math.floor (i / cols)`,
`col = i % cols`. -/
def liquidCase (M : MathOracle) (count : ℕ) (r4 r5 : ℚ) (i : ℕ) :
    Option (ℚ × ℚ × ℚ) := do
  let size : ℚ := 40
  let sq ← jsqrt M (count : ℚ)
  let cols : ℤ := ⌊sq⌋
  let q ← jsdiv (i : ℚ) (cols : ℚ)
  let row : ℤ := ⌊q⌋
  let col : ℤ := (i : ℤ) % cols
  let xq ← jsdiv (col : ℚ) (cols : ℚ)
  let zq ← jsdiv (row : ℚ) (cols : ℚ)
  some (map xq (-size) size + (r4 - 1/2) * 2, 0, map zq (-size) size + (r5 - 1/2) * 2)

/-- `case PULSING_BLACK_HOLE` (identical in both revisions); in the core
branch the draws `r4, r5, r6` are `theta`, the `acos` argument and the
radius jitter; in the disk branch `r4` is the height jitter draw. -/
def blackHoleCase (M : MathOracle) (count : ℕ) (r1 r2 r4 r5 r6 : ℚ) (i : ℕ) :
    Option (ℚ × ℚ × ℚ) :=
  if (i : ℚ) < (count : ℚ) * (2/10) then do
    let theta := r4 * M.pi * 2
    let phi ← jsacos M (2 * r5 - 1)
    let r := 5 + r6
    some (setFromSphericalCoords M r phi theta)
  else do
    let angle := r1 * M.pi * 2
    let dist := 8 + (r2 * 25)
    let invDist ← jsdiv 1 dist
    let heightVar := invDist * 10
    let x := M.cos angle * dist
    let z := M.sin angle * dist
    let y := (r4 - 1/2) * heightVar
    let twist := dist * (2/10)
    some (x * M.cos twist - z * M.sin twist, y, x * M.sin twist + z * M.cos twist)

/-- The `default` branch: uniform fill of the cube `[-15, 15]³` (identical
in both revisions). -/
def defaultCase (r1 r2 r3 : ℚ) : Option (ℚ × ℚ × ℚ) :=
  let s : ℚ := 15
  some (map r1 (-s) s, map r2 (-s) s, map r3 (-s) s)

/-! ### Revision-2 attractor branches

Revision 2 keeps one continuous state `(ax, ay, az)` across loop
iterations, initialized to `(0.1, 0, 0)` before the loop; each attractor
branch occasionally resets it (consuming one extra `Math.random()` draw,
`r4`), advances it one Euler step, and emits the transformed state. -/

/-- `case LORENZ_ATTRACTOR` of revision 2: reset to
`(0.1 + (r4 - 0.5) * 10, 0.1, 0.1)` every 500 particles, one `lorenzStep`,
emit `(0.8 * ax, 0.8 * ay, 0.8 * (az - 25))`. -/
def lorenzCase2 (r4 : ℚ) (i : ℕ) (st : ℚ × ℚ × ℚ) : (ℚ × ℚ × ℚ) × (ℚ × ℚ × ℚ) :=
  let st0 := if i % 500 = 0 then (1/10 + (r4 - 1/2) * 10, 1/10, 1/10) else st
  let st1 := lorenzStep st0
  (st1, multiplyScalar (8/10) (st1.1, st1.2.1, st1.2.2 - 25))

/-- One Euler step of the Aizawa system with `dt = 0.01` and the fixed
parameters `a = 0.95, b = 0.7, c = 0.6, d = 3.5, e = 0.25, f = 0.1`. -/
def aizawaStep (p : ℚ × ℚ × ℚ) : ℚ × ℚ × ℚ :=
  let dt : ℚ := 1/100
  let a : ℚ := 95/100
  let b : ℚ := 7/10
  let c : ℚ := 6/10
  let d : ℚ := 35/10
  let e : ℚ := 25/100
  let f : ℚ := 1/10
  let ax := p.1
  let ay := p.2.1
  let az := p.2.2
  let dx := (az - b) * ax - d * ay
  let dy := d * ax + (az - b) * ay
  let dz := c + a * az - (az^3 / 3) - (ax^2 + ay^2) * (1 + e * az) + f * az * ax^3
  (ax + dx * dt, ay + dy * dt, az + dz * dt)

/-- `case AIZAWA_ATTRACTOR` of revision 2: reset to
`(0.1 + (r4 - 0.5) * 2, 0, 0)` every 500 particles, one `aizawaStep`, emit
`(15 ax, 15 ay, 15 az)`. -/
def aizawaCase (r4 : ℚ) (i : ℕ) (st : ℚ × ℚ × ℚ) : (ℚ × ℚ × ℚ) × (ℚ × ℚ × ℚ) :=
  let st0 := if i % 500 = 0 then (1/10 + (r4 - 1/2) * 2, 0, 0) else st
  let st1 := aizawaStep st0
  (st1, (st1.1 * 15, st1.2.1 * 15, st1.2.2 * 15))

/-- One Euler step of the Thomas cyclically symmetric system with
`b = 0.208186` and `dt = 0.05`. -/
def thomasStep (M : MathOracle) (p : ℚ × ℚ × ℚ) : ℚ × ℚ × ℚ :=
  let bConst : ℚ := 208186/1000000
  let dt : ℚ := 5/100
  let dx := M.sin p.2.1 - bConst * p.1
  let dy := M.sin p.2.2 - bConst * p.2.1
  let dz := M.sin p.1 - bConst * p.2.2
  (p.1 + dx * dt, p.2.1 + dy * dt, p.2.2 + dz * dt)

/-- `case THOMAS_ATTRACTOR` of revision 2: reset to
`(0.1 + (r4 - 0.5) * 2, 0.1, 0.1)` every 1000 particles, one `thomasStep`,
emit `(ax*4, ay*4, az*4)` scaled by `8`. -/
def thomasCase (M : MathOracle) (r4 : ℚ) (i : ℕ) (st : ℚ × ℚ × ℚ) :
    (ℚ × ℚ × ℚ) × (ℚ × ℚ × ℚ) :=
  let st0 := if i % 1000 = 0 then (1/10 + (r4 - 1/2) * 2, 1/10, 1/10) else st
  let st1 := thomasStep M st0
  (st1, multiplyScalar 8 (st1.1 * 4, st1.2.1 * 4, st1.2.2 * 4))

/-- One Euler step of the Halvorsen system (used by the `CLIFFORD_ATTRACTOR`
case) with `a = 1.4` and `dt = 0.005`. -/
def halvorsenStep (p : ℚ × ℚ × ℚ) : ℚ × ℚ × ℚ :=
  let aConst : ℚ := 14/10
  let dt : ℚ := 5/1000
  let ax := p.1
  let ay := p.2.1
  let az := p.2.2
  let dx := -aConst * ax - 4 * ay - 4 * az - ay * ay
  let dy := -aConst * ay - 4 * az - 4 * ax - az * az
  let dz := -aConst * az - 4 * ax - 4 * ay - ax * ax
  (ax + dx * dt, ay + dy * dt, az + dz * dt)

/-- `case CLIFFORD_ATTRACTOR` of revision 2: reset to
`(1 + (r4 - 0.5), 0, 0)` every 500 particles, one `halvorsenStep`, emit the
state scaled by `6`. -/
def cliffordCase (r4 : ℚ) (i : ℕ) (st : ℚ × ℚ × ℚ) : (ℚ × ℚ × ℚ) × (ℚ × ℚ × ℚ) :=
  let st0 := if i % 500 = 0 then (1 + (r4 - 1/2), 0, 0) else st
  let st1 := halvorsenStep st0
  (st1, multiplyScalar 6 st1)

/-! ### The two generator revisions

`VisualShape` is a TypeScript string enum, so the `switch` dispatch is
string comparison; we model a shape kind as the underlying `String`, which
also gives the `default` branch its "unrecognized kind" inputs.  `R i j` is
the `j`-th `Math.random()` call of iteration `i`; `r1, r2, r3` are the
draws taken before the `switch` in every iteration. -/

/-- The value of `dummy` written for particle `i` by revision 1 of
`getShapePositions` (the revision whose `LORENZ_ATTRACTOR` case integrates
from scratch for each particle). -/
def shapePoint1 (M : MathOracle) (type : String) (count : ℕ) (chaosLevel : ℚ)
    (R : ℕ → ℚ) (i : ℕ) : Option (ℚ × ℚ × ℚ) :=
  let r1 := R 0
  let r2 := R 1
  let r3 := R 2
  match type with
  | "SPHERE" => sphereCase M chaosLevel r1 r2 r3
  | "GALAXY_SPIRAL" => galaxyCase M count chaosLevel r1 r2 r3 i
  | "LORENZ_ATTRACTOR" => some (lorenzCase1 i)
  | "MOBIUS_STRIP" => mobiusCase M r1 r2
  | "CARDIOID_HEART" => cardioidCase M r1 r2
  | "DNA_HELIX" => dnaCase M count chaosLevel r3 i
  | "MENGER_SPONGE_APPROX" => mengerCase chaosLevel r1 r2 r3 (R 3) (R 4) (R 5)
  | "PENROSE_TRIANGLE_APPROX" => penroseCase chaosLevel (R 3) (R 4) (R 5) i
  | "TORUS" => torusCase M chaosLevel r1 r2
  | "KLEIN_BOTTLE" => kleinCase M r1 r2
  | "VOXEL_GRID" => voxelCase chaosLevel r1 r2 r3 (R 3) (R 4) (R 5)
  | "CYBER_FLOWER" => cyberFlowerCase M chaosLevel r1 r2 i
  | "LIQUID_WAVE" => liquidCase M count (R 3) (R 4) i
  | "PULSING_BLACK_HOLE" => blackHoleCase M count r1 r2 (R 3) (R 4) (R 5) i
  | _ => defaultCase r1 r2 r3

/-- One iteration of revision 2 of `getShapePositions`: takes the attractor
state `(ax, ay, az)` in, returns the updated state and the value of `dummy`
written for particle `i`. -/
def shapeStep2 (M : MathOracle) (type : String) (count : ℕ) (chaosLevel : ℚ)
    (R : ℕ → ℚ) (i : ℕ) (st : ℚ × ℚ × ℚ) : (ℚ × ℚ × ℚ) × Option (ℚ × ℚ × ℚ) :=
  let r1 := R 0
  let r2 := R 1
  let r3 := R 2
  match type with
  | "SPHERE" => (st, sphereCase M chaosLevel r1 r2 r3)
  | "GALAXY_SPIRAL" => (st, galaxyCase M count chaosLevel r1 r2 r3 i)
  | "LORENZ_ATTRACTOR" =>
      let out := lorenzCase2 (R 3) i st
      (out.1, some out.2)
  | "MOBIUS_STRIP" => (st, mobiusCase M r1 r2)
  | "CARDIOID_HEART" => (st, cardioidCase M r1 r2)
  | "DNA_HELIX" => (st, dnaCase M count chaosLevel r3 i)
  | "MENGER_SPONGE_APPROX" => (st, mengerCase chaosLevel r1 r2 r3 (R 3) (R 4) (R 5))
  | "PENROSE_TRIANGLE_APPROX" => (st, penroseCase chaosLevel (R 3) (R 4) (R 5) i)
  | "TORUS" => (st, torusCase M chaosLevel r1 r2)
  | "KLEIN_BOTTLE" => (st, kleinCase M r1 r2)
  | "VOXEL_GRID" => (st, voxelCase chaosLevel r1 r2 r3 (R 3) (R 4) (R 5))
  | "CYBER_FLOWER" => (st, cyberFlowerCase M chaosLevel r1 r2 i)
  | "LIQUID_WAVE" => (st, liquidCase M count (R 3) (R 4) i)
  | "PULSING_BLACK_HOLE" => (st, blackHoleCase M count r1 r2 (R 3) (R 4) (R 5) i)
  | "AIZAWA_ATTRACTOR" =>
      let out := aizawaCase (R 3) i st
      (out.1, some out.2)
  | "THOMAS_ATTRACTOR" =>
      let out := thomasCase M (R 3) i st
      (out.1, some out.2)
  | "CLIFFORD_ATTRACTOR" =>
      let out := cliffordCase (R 3) i st
      (out.1, some out.2)
  | _ => (st, defaultCase r1 r2 r3)

/-- Writes `dummy` into the three consecutive `Float32Array` slots of
particle `i` (`none` marking a NaN coordinate). -/
def tripleList : Option (ℚ × ℚ × ℚ) → List (Option ℚ)
  | none => [none, none, none]
  | some (x, y, z) => [some x, some y, some z]

/-- The position buffer of revision 1, as the concatenation of the
per-particle triples over the loop indices `l`. -/
def genLoop1 (M : MathOracle) (type : String) (count : ℕ) (chaosLevel : ℚ)
    (R : ℕ → ℕ → ℚ) : List ℕ → List (Option ℚ)
  | [] => []
  | i :: is => tripleList (shapePoint1 M type count chaosLevel (R i) i) ++
      genLoop1 M type count chaosLevel R is

/-- Revision 1 of `getShapePositions` (`new Float32Array(count * 3)` filled
by the loop `for (let i = 0; i < count; i++)`). -/
def getShapePositions1 (M : MathOracle) (type : String) (count : ℕ)
    (chaosLevel : ℚ) (R : ℕ → ℕ → ℚ) : List (Option ℚ) :=
  genLoop1 M type count chaosLevel R (List.range count)

/-- The position buffer of revision 2, threading the attractor state. -/
def genLoop2 (M : MathOracle) (type : String) (count : ℕ) (chaosLevel : ℚ)
    (R : ℕ → ℕ → ℚ) : List ℕ → (ℚ × ℚ × ℚ) → List (Option ℚ)
  | [], _ => []
  | i :: is, st =>
      let out := shapeStep2 M type count chaosLevel (R i) i st
      tripleList out.2 ++ genLoop2 M type count chaosLevel R is out.1

/-- Revision 2 of `getShapePositions` (the revision with the shared
attractor variables `let ax = 0.1, ay = 0, az = 0` before the loop). -/
def getShapePositions2 (M : MathOracle) (type : String) (count : ℕ)
    (chaosLevel : ℚ) (R : ℕ → ℕ → ℚ) : List (Option ℚ) :=
  genLoop2 M type count chaosLevel R (List.range count) (1/10, 0, 0)

/-! ### The frame loop of VisualizerScene

The two revisions of `VisualizerScene` differ in their morph constants
(`8 s` cooldown / `0.6` switch threshold / `20 s` force switch versus
`6 s` / `0.5` / `15 s`), their lerp rates (`0.02 + volume * 0.05` versus
`0.03 + volume * 0.08`) and in revision 2's gesture gate.  The generator is
taken as an abstract parameter `gen` (shape name, count, chaos ↦ buffer);
the buffers are indexed by particle, mirroring the `Float32Array`s.  The
shader-uniform writes that do not feed back into this state (colors, time,
warp, right-hand ripple) are not part of the model. -/

/-- `PARTICLE_COUNT` from constants.ts. -/
def PARTICLE_COUNT : ℕ := 15000

/-- The `Object.values(VisualShape)` list of revision 1 (15 kinds).  Note
that `CUBE_GRID` has no `case` in `getShapePositions` and lands in the
`default` branch. -/
def allShapes1 : List String :=
  ["SPHERE", "GALAXY_SPIRAL", "LORENZ_ATTRACTOR", "MOBIUS_STRIP",
   "MENGER_SPONGE_APPROX", "PENROSE_TRIANGLE_APPROX", "CARDIOID_HEART",
   "DNA_HELIX", "CUBE_GRID", "TORUS", "KLEIN_BOTTLE", "VOXEL_GRID",
   "CYBER_FLOWER", "LIQUID_WAVE", "PULSING_BLACK_HOLE"]

/-- The `Object.values(VisualShape)` list of revision 2 (18 kinds, the
declaration order of constants.ts's `SHAPE_LABELS`). -/
def allShapes2 : List String :=
  allShapes1 ++ ["AIZAWA_ATTRACTOR", "THOMAS_ATTRACTOR", "CLIFFORD_ATTRACTOR"]

/-- The shape kinds revision 1 handles with a dedicated `case` (everything
else falls to the `default` cube fill). -/
def handledKinds1 : List String :=
  ["SPHERE", "GALAXY_SPIRAL", "LORENZ_ATTRACTOR", "MOBIUS_STRIP",
   "CARDIOID_HEART", "DNA_HELIX", "MENGER_SPONGE_APPROX",
   "PENROSE_TRIANGLE_APPROX", "TORUS", "KLEIN_BOTTLE", "VOXEL_GRID",
   "CYBER_FLOWER", "LIQUID_WAVE", "PULSING_BLACK_HOLE"]

/-- The shape kinds revision 2 handles with a dedicated `case`. -/
def handledKinds2 : List String :=
  handledKinds1 ++ ["AIZAWA_ATTRACTOR", "THOMAS_ATTRACTOR", "CLIFFORD_ATTRACTOR"]

/-- The `VisualConfig` fields the core consumes (colors and description
only feed the shaders and the UI). -/
structure VisualConfig where
  shape : String
  speed : ℚ
  chaos : ℚ

/-- The mutable per-scene state of `VisualizerScene`: the morph state
(`currentShapeRef`, `lastShapeChangeTime`, `targetPositionsRef`), the
rendered position attribute, and the smoothed `uHandGrip` uniform
(revision 2 only; revision 1 leaves it untouched). -/
structure SceneState where
  currentShape : String
  lastShapeChangeTime : ℚ
  targetPositions : ℕ → ℚ × ℚ × ℚ
  currentPositions : ℕ → ℚ × ℚ × ℚ
  uHandGrip : ℚ

/-- The external per-frame inputs: clock time, `volume`
(= `averageFrequency / 255`), the `Math.random()` draw used to pick the
next shape, the per-particle explosion draws, and the left-hand gesture
snapshot. -/
structure FrameInput where
  time : ℚ
  volume : ℚ
  rPick : ℚ
  pushR : ℕ → ℚ
  leftActive : Bool
  leftIsFist : Bool
  leftStrength : ℚ

/-- The dynamic shape-switching block of `useFrame`: when the cooldown has
elapsed and either the volume exceeds the switch threshold or the
force-switch time is exceeded, pick a random shape different from the
current one, regenerate the target buffer with
`min 1 (config.chaos + volume * 0.2)`, and record the transition time.  An
out-of-range pick index (impossible for draws in `[0,1)`) yields
JavaScript's `undefined`. -/
def morphUpdate (gen : String → ℕ → ℚ → ℕ → ℚ × ℚ × ℚ)
    (cooldown switchThreshold forceSwitchTime : ℚ) (shapes : List String)
    (configChaos : ℚ) (count : ℕ) (time volume rPick : ℚ) (s : SceneState) :
    SceneState :=
  let timeSinceLastChange := time - s.lastShapeChangeTime
  if timeSinceLastChange > cooldown ∧
      (volume > switchThreshold ∨ timeSinceLastChange > forceSwitchTime) then
    let candidates := shapes.filter (fun sh => sh ≠ s.currentShape)
    let nextShape := (candidates[(⌊rPick * (candidates.length : ℚ)⌋).toNat]?).getD "undefined"
    let dynamicChaos := configChaos + volume * (2/10)
    { s with currentShape := nextShape,
             lastShapeChangeTime := time,
             targetPositions := gen nextShape count (min 1 dynamicChaos) }
  else s

/-- One particle's interpolation step:
`current += (target - current) * lerpSpeed` on each coordinate. -/
def lerpPoint (lerpSpeed : ℚ) (c t : ℚ × ℚ × ℚ) : ℚ × ℚ × ℚ :=
  (c.1 + (t.1 - c.1) * lerpSpeed,
   c.2.1 + (t.2.1 - c.2.1) * lerpSpeed,
   c.2.2 + (t.2.2 - c.2.2) * lerpSpeed)

/-- The audio-reactive explosion: when `volume > 0.8`, one draw per
particle produces `push = (rnd - 0.5) * volume * 0.5`, added to all three
coordinates. -/
def pushPoint (volume rnd : ℚ) (p : ℚ × ℚ × ℚ) : ℚ × ℚ × ℚ :=
  if volume > 8/10 then
    let push := (rnd - 1/2) * volume * (5/10)
    (p.1 + push, p.2.1 + push, p.2.2 + push)
  else p

/-- Revision 1's particle update (`lerpSpeed = 0.02 + volume * 0.05`),
followed by the explosion perturbation. -/
def integrate1 (volume : ℚ) (pushR : ℕ → ℚ) (cur tgt : ℕ → ℚ × ℚ × ℚ) :
    ℕ → ℚ × ℚ × ℚ :=
  fun i => pushPoint volume (pushR i)
    (lerpPoint (2/100 + volume * (5/100)) (cur i) (tgt i))

/-- Revision 2's particle update (`lerpSpeed = 0.03 + volume * 0.08`). -/
def integrate2 (volume : ℚ) (pushR : ℕ → ℚ) (cur tgt : ℕ → ℚ × ℚ × ℚ) :
    ℕ → ℚ × ℚ × ℚ :=
  fun i => pushPoint volume (pushR i)
    (lerpPoint (3/100 + volume * (8/100)) (cur i) (tgt i))

/-- One frame of revision 1's `useFrame`: morph decision, then the
unconditional particle update. -/
def frame1 (gen : String → ℕ → ℚ → ℕ → ℚ × ℚ × ℚ) (config : VisualConfig)
    (inp : FrameInput) (s : SceneState) : SceneState :=
  let s1 := morphUpdate gen 8 (6/10) 20 allShapes1 config.chaos PARTICLE_COUNT
    inp.time inp.volume inp.rPick s
  { s1 with currentPositions :=
      integrate1 inp.volume inp.pushR s1.currentPositions s1.targetPositions }

/-- The instantaneous left-hand grip target: `+strength` for a fist
(implode), `-strength` for an open hand (explode), `0` when untracked. -/
def gripValue (inp : FrameInput) : ℚ :=
  if inp.leftActive then
    (if inp.leftIsFist then inp.leftStrength else -inp.leftStrength)
  else 0

/-- The smoothed grip written to the `uHandGrip` uniform this frame:
`THREE.MathUtils.lerp(currentGrip, gripVal, 0.1) = (1 - 0.1) * currentGrip
+ 0.1 * gripVal`. -/
def smoothedGrip (inp : FrameInput) (s : SceneState) : ℚ :=
  (1 - 1/10) * s.uHandGrip + (1/10) * gripValue inp

/-- One frame of revision 2's `useFrame`: morph decision, `uHandGrip`
smoothing, then the particle update gated by `handGrip < 0.5` ("only morph
if hand is NOT imploding strongly"). -/
def frame2 (gen : String → ℕ → ℚ → ℕ → ℚ × ℚ × ℚ) (config : VisualConfig)
    (inp : FrameInput) (s : SceneState) : SceneState :=
  let s1 := morphUpdate gen 6 (5/10) 15 allShapes2 config.chaos PARTICLE_COUNT
    inp.time inp.volume inp.rPick s
  let s2 := { s1 with uHandGrip := smoothedGrip inp s1 }
  if s2.uHandGrip < 5/10 then
    { s2 with currentPositions :=
        integrate2 inp.volume inp.pushR s2.currentPositions s2.targetPositions }
  else s2

/-- The `useEffect` run when a new `VisualConfig` arrives (both revisions):
regenerate the target buffer for the configured shape, adopt the shape, and
set `lastShapeChangeTime.current = 0`. -/
def applyConfig (gen : String → ℕ → ℚ → ℕ → ℚ × ℚ × ℚ) (config : VisualConfig)
    (s : SceneState) : SceneState :=
  { s with targetPositions := gen config.shape PARTICLE_COUNT config.chaos,
           currentShape := config.shape,
           lastShapeChangeTime := 0 }

/-- Iterated revision-1 particle updates against a fixed target buffer:
`integrateChain1 volume pushR tgt n cur` is the current buffer after `n`
frames of constant volume, where `pushR n i` is particle `i`'s explosion
draw on frame `n`. -/
def integrateChain1 (volume : ℚ) (pushR : ℕ → ℕ → ℚ) (tgt : ℕ → ℚ × ℚ × ℚ) :
    ℕ → (ℕ → ℚ × ℚ × ℚ) → ℕ → ℚ × ℚ × ℚ
  | 0, cur => cur
  | n + 1, cur => integrate1 volume (pushR n) (integrateChain1 volume pushR tgt n cur) tgt

/-- Iterated revision-2 particle updates against a fixed target buffer. -/
def integrateChain2 (volume : ℚ) (pushR : ℕ → ℕ → ℚ) (tgt : ℕ → ℚ × ℚ × ℚ) :
    ℕ → (ℕ → ℚ × ℚ × ℚ) → ℕ → ℚ × ℚ × ℚ
  | 0, cur => cur
  | n + 1, cur => integrate2 volume (pushR n) (integrateChain2 volume pushR tgt n cur) tgt

/-- Squared Euclidean distance between two particle positions. -/
def distSq (a b : ℚ × ℚ × ℚ) : ℚ :=
  (a.1 - b.1)^2 + (a.2.1 - b.2.1)^2 + (a.2.2 - b.2.2)^2

/-! ### Audio feature extraction (inside `useFrame`) -/

/-- The `volume` feature: `audio.averageFrequency / 255`. -/
def volumeOf (averageFrequency : ℚ) : ℚ := averageFrequency / 255

/-- The treble feature of `useFrame` (identical in both revisions):
`lowerBound = Math.floor(length * 0.7)`, sum the bins from `lowerBound`, and
divide by the number of summed bins and by `255`.  For an empty bin array
the divisor `length - lowerBound` is `0` and the sum is `0`, so JavaScript
computes `0 / 0 = NaN` (modelled as `none`). -/
def trebleOf (frequencyData : List ℚ) : Option ℚ := do
  let lowerBound : ℕ := (⌊(frequencyData.length : ℚ) * (7/10)⌋).toNat
  let trebleSum := (frequencyData.drop lowerBound).sum
  let q ← jsdiv trebleSum ((frequencyData.length : ℚ) - (lowerBound : ℚ))
  some (q / 255)

/-! ### Helper lemmas about the frame loop -/

/-- The shape-switching block never writes the rendered position buffer. -/
theorem morphUpdate_currentPositions (gen : String → ℕ → ℚ → ℕ → ℚ × ℚ × ℚ)
    (cooldown switchThreshold forceSwitchTime : ℚ) (shapes : List String)
    (configChaos : ℚ) (count : ℕ) (time volume rPick : ℚ) (s : SceneState) :
    (morphUpdate gen cooldown switchThreshold forceSwitchTime shapes configChaos
      count time volume rPick s).currentPositions = s.currentPositions := by
  dsimp only [morphUpdate]
  split <;> rfl

/-- The shape-switching block never writes the grip uniform. -/
theorem morphUpdate_uHandGrip (gen : String → ℕ → ℚ → ℕ → ℚ × ℚ × ℚ)
    (cooldown switchThreshold forceSwitchTime : ℚ) (shapes : List String)
    (configChaos : ℚ) (count : ℕ) (time volume rPick : ℚ) (s : SceneState) :
    (morphUpdate gen cooldown switchThreshold forceSwitchTime shapes configChaos
      count time volume rPick s).uHandGrip = s.uHandGrip := by
  dsimp only [morphUpdate]
  split <;> rfl

/-- When the firing condition is false the shape-switching block is the
identity on the scene state. -/
theorem morphUpdate_of_not_cond (gen : String → ℕ → ℚ → ℕ → ℚ × ℚ × ℚ)
    (cooldown switchThreshold forceSwitchTime : ℚ) (shapes : List String)
    (configChaos : ℚ) (count : ℕ) (time volume rPick : ℚ) (s : SceneState)
    (h : ¬(time - s.lastShapeChangeTime > cooldown ∧
      (volume > switchThreshold ∨ time - s.lastShapeChangeTime > forceSwitchTime))) :
    morphUpdate gen cooldown switchThreshold forceSwitchTime shapes configChaos
      count time volume rPick s = s := by
  dsimp only [morphUpdate]
  rw [if_neg h]

/-- A revision-2 frame's `currentShape` is whatever the shape-switching
block decided (the gesture gate does not touch it). -/
theorem frame2_currentShape (gen : String → ℕ → ℚ → ℕ → ℚ × ℚ × ℚ)
    (config : VisualConfig) (inp : FrameInput) (s : SceneState) :
    (frame2 gen config inp s).currentShape =
      (morphUpdate gen 6 (5/10) 15 allShapes2 config.chaos PARTICLE_COUNT
        inp.time inp.volume inp.rPick s).currentShape := by
  dsimp only [frame2]
  split <;> rfl

/-- A concrete generator placing every particle at the origin, for witness
instantiations. -/
def gen0 : String → ℕ → ℚ → ℕ → ℚ × ℚ × ℚ := fun _ _ _ _ => (0, 0, 0)

/-- A concrete scene state for witness instantiations. -/
def st0 : SceneState :=
  { currentShape := "SPHERE", lastShapeChangeTime := 0,
    targetPositions := fun _ => (0, 0, 0), currentPositions := fun _ => (0, 0, 0),
    uHandGrip := 0 }

/-- A concrete config for witness instantiations. -/
def cfg0 : VisualConfig := { shape := "CARDIOID_HEART", speed := 1, chaos := 1/2 }

/-! ### C3: no transition below both thresholds -/

/-- C3: at any tick where the volume is below the switch threshold and the
elapsed time since the last transition is below the force-switch maximum,
the shape-switching block leaves the whole morph state unchanged (in
particular `currentShape` never changes), for either revision's constants. -/
theorem morph_idle_below_thresholds (gen : String → ℕ → ℚ → ℕ → ℚ × ℚ × ℚ)
    (cooldown switchThreshold forceSwitchTime : ℚ) (shapes : List String)
    (configChaos : ℚ) (count : ℕ) (time volume rPick : ℚ) (s : SceneState)
    (hvol : volume < switchThreshold)
    (ht : time - s.lastShapeChangeTime < forceSwitchTime) :
    morphUpdate gen cooldown switchThreshold forceSwitchTime shapes configChaos
      count time volume rPick s = s := by
  dsimp only [morphUpdate]
  rw [if_neg]
  rintro ⟨-, h | h⟩
  · exact lt_asymm hvol h
  · exact lt_asymm ht h

/-- Witness for C3 at revision 2's constants. -/
theorem morph_idle_below_thresholds_witness :
    (0 : ℚ) < 1/2 ∧
      morphUpdate gen0 6 (1/2) 15 allShapes2 (1/2) PARTICLE_COUNT 3 0 0 st0 = st0 :=
  ⟨by norm_num,
    morph_idle_below_thresholds gen0 6 (1/2) 15 allShapes2 (1/2) PARTICLE_COUNT 3 0 0
      st0 (by norm_num) (by norm_num [st0])⟩

/-! ### C2: a forced switch fires and never self-transitions -/

/-- C2: when the elapsed time since the last transition exceeds the
force-switch maximum (which dominates the cooldown in both revisions) and
the audio energy is `0`, the shape-switching block fires a transition —
`lastShapeChangeTime` is set to the tick's time — and the newly selected
shape differs from the shape current before the tick. -/
theorem morph_forced_switch_fires (gen : String → ℕ → ℚ → ℕ → ℚ × ℚ × ℚ)
    (cooldown switchThreshold forceSwitchTime : ℚ) (shapes : List String)
    (configChaos : ℚ) (count : ℕ) (time rPick : ℚ) (s : SceneState)
    (hcf : cooldown ≤ forceSwitchTime)
    (ht : time - s.lastShapeChangeTime > forceSwitchTime)
    (hr0 : 0 ≤ rPick) (hr1 : rPick < 1)
    (hex : ∃ a ∈ shapes, a ≠ s.currentShape) :
    (morphUpdate gen cooldown switchThreshold forceSwitchTime shapes configChaos
        count time 0 rPick s).currentShape ≠ s.currentShape ∧
    (morphUpdate gen cooldown switchThreshold forceSwitchTime shapes configChaos
        count time 0 rPick s).lastShapeChangeTime = time := by
  have hcond : time - s.lastShapeChangeTime > cooldown ∧
      ((0 : ℚ) > switchThreshold ∨ time - s.lastShapeChangeTime > forceSwitchTime) :=
    ⟨lt_of_le_of_lt hcf ht, Or.inr ht⟩
  have hlen : 0 < (shapes.filter (fun sh => sh ≠ s.currentShape)).length := by
    obtain ⟨a, ha, hane⟩ := hex
    exact List.length_pos.mpr
      (List.ne_nil_of_mem (List.mem_filter.mpr ⟨ha, by simp [hane]⟩))
  have hidx : (⌊rPick * ((shapes.filter (fun sh => sh ≠ s.currentShape)).length : ℚ)⌋).toNat <
      (shapes.filter (fun sh => sh ≠ s.currentShape)).length := by
    have hnq : (0 : ℚ) < ((shapes.filter (fun sh => sh ≠ s.currentShape)).length : ℚ) := by
      exact_mod_cast hlen
    have hfl : ⌊rPick * ((shapes.filter (fun sh => sh ≠ s.currentShape)).length : ℚ)⌋ <
        ((shapes.filter (fun sh => sh ≠ s.currentShape)).length : ℤ) := by
      apply Int.floor_lt.mpr
      push_cast
      nlinarith
    have h2 : 0 ≤ ⌊rPick * ((shapes.filter (fun sh => sh ≠ s.currentShape)).length : ℚ)⌋ :=
      Int.floor_nonneg.mpr (by positivity)
    omega
  have hne : (((shapes.filter (fun sh => sh ≠ s.currentShape))[(⌊rPick *
        ((shapes.filter (fun sh => sh ≠ s.currentShape)).length : ℚ)⌋).toNat]?).getD
        "undefined") ≠ s.currentShape := by
    rw [List.getElem?_eq_getElem hidx]
    have hmem := (List.mem_filter.mp (List.getElem_mem hidx)).2
    simpa using hmem
  constructor
  · dsimp only [morphUpdate]
    rw [if_pos hcond]
    exact hne
  · dsimp only [morphUpdate]
    rw [if_pos hcond]

/-- Witness for C2 at revision 2's constants on the 18-kind list. -/
theorem morph_forced_switch_fires_witness :
    (morphUpdate gen0 6 (1/2) 15 allShapes2 (1/2) PARTICLE_COUNT 16 0 0
        st0).currentShape ≠ st0.currentShape ∧
    (morphUpdate gen0 6 (1/2) 15 allShapes2 (1/2) PARTICLE_COUNT 16 0 0
        st0).lastShapeChangeTime = 16 :=
  morph_forced_switch_fires gen0 6 (1/2) 15 allShapes2 (1/2) PARTICLE_COUNT 16 0 st0
    (by norm_num) (by norm_num [st0]) (by norm_num) (by norm_num)
    ⟨"TORUS", by simp [allShapes2, allShapes1], by simp [st0]⟩

/-! ### C5: write separation of the two buffers -/

/-- C5: a shape transition replaces only the target buffer — the
shape-switching block never writes the rendered buffer — while, in both
revisions, the frame's integration phase only rewrites the rendered buffer
through the interpolation-plus-perturbation update and leaves the target
buffer exactly as the morph phase left it. -/
theorem buffer_write_separation :
    (∀ gen cooldown switchThreshold forceSwitchTime shapes configChaos count
        time volume rPick s,
      (morphUpdate gen cooldown switchThreshold forceSwitchTime shapes configChaos
        count time volume rPick s).currentPositions = s.currentPositions) ∧
    (∀ gen config inp s,
      (frame1 gen config inp s).targetPositions =
        (morphUpdate gen 8 (6/10) 20 allShapes1 config.chaos PARTICLE_COUNT
          inp.time inp.volume inp.rPick s).targetPositions ∧
      (frame1 gen config inp s).currentPositions =
        integrate1 inp.volume inp.pushR
          (morphUpdate gen 8 (6/10) 20 allShapes1 config.chaos PARTICLE_COUNT
            inp.time inp.volume inp.rPick s).currentPositions
          (morphUpdate gen 8 (6/10) 20 allShapes1 config.chaos PARTICLE_COUNT
            inp.time inp.volume inp.rPick s).targetPositions) ∧
    (∀ gen config inp s,
      (frame2 gen config inp s).targetPositions =
        (morphUpdate gen 6 (5/10) 15 allShapes2 config.chaos PARTICLE_COUNT
          inp.time inp.volume inp.rPick s).targetPositions) := by
  refine ⟨fun gen c t f sh cc n ti v r s => morphUpdate_currentPositions gen c t f sh cc n ti v r s,
    fun gen config inp s => ⟨rfl, rfl⟩, fun gen config inp s => ?_⟩
  dsimp only [frame2]
  split <;> rfl

/-! ### C6: the gesture gate is signed, not a magnitude test -/

/-- Frame input for a strong explosion: tracked open left hand at full
strength. -/
def inpExplode : FrameInput :=
  { time := 0, volume := 0, rPick := 0, pushR := fun _ => 0,
    leftActive := true, leftIsFist := false, leftStrength := 1 }

/-- Scene state whose grip uniform is already saturated at `-1` (strong
explosion), with one particle away from its target. -/
def stExplode : SceneState :=
  { currentShape := "SPHERE", lastShapeChangeTime := 0,
    targetPositions := fun _ => (1, 0, 0), currentPositions := fun _ => (0, 0, 0),
    uHandGrip := -1 }

/-- C6 counterexample: with the smoothed grip at `-1` — magnitude `1`, far
beyond the `0.5` threshold, but an explosion, not an implosion — the
revision-2 frame still applies the interpolation toward the target (the
particle moves), because the gate tests the signed grip `handGrip < 0.5`
rather than its absolute value. -/
theorem grip_magnitude_does_not_suspend :
    5/10 < |smoothedGrip inpExplode stExplode| ∧
    (frame2 gen0 cfg0 inpExplode stExplode).currentPositions 0 ≠
      stExplode.currentPositions 0 := by
  have hsm : smoothedGrip inpExplode stExplode = -1 := by
    norm_num [smoothedGrip, gripValue, inpExplode, stExplode]
  have hmorph : morphUpdate gen0 6 (5/10) 15 allShapes2 cfg0.chaos PARTICLE_COUNT
      inpExplode.time inpExplode.volume inpExplode.rPick stExplode = stExplode := by
    apply morphUpdate_of_not_cond
    norm_num [inpExplode, stExplode]
  constructor
  · rw [hsm]; norm_num
  · dsimp only [frame2]
    rw [hmorph, hsm, if_pos (by norm_num : (-1 : ℚ) < 5/10)]
    show integrate2 inpExplode.volume inpExplode.pushR stExplode.currentPositions
        stExplode.targetPositions 0 ≠ stExplode.currentPositions 0
    norm_num [integrate2, lerpPoint, pushPoint, inpExplode, stExplode, Prod.ext_iff]

/-- C6 amended: the morph-toward-target stepping of a revision-2 tick is
suspended exactly when the signed smoothed grip is at least `0.5` (strong
implosion); any smaller signed value — including arbitrarily strong
explosions — leaves the interpolation running. -/
theorem grip_gate_signed (gen : String → ℕ → ℚ → ℕ → ℚ × ℚ × ℚ)
    (config : VisualConfig) (inp : FrameInput) (s : SceneState) :
    (5/10 ≤ smoothedGrip inp s →
      (frame2 gen config inp s).currentPositions = s.currentPositions) ∧
    (smoothedGrip inp s < 5/10 →
      (frame2 gen config inp s).currentPositions =
        integrate2 inp.volume inp.pushR s.currentPositions
          (morphUpdate gen 6 (5/10) 15 allShapes2 config.chaos PARTICLE_COUNT
            inp.time inp.volume inp.rPick s).targetPositions) := by
  have hgrip : smoothedGrip inp (morphUpdate gen 6 (5/10) 15 allShapes2 config.chaos
      PARTICLE_COUNT inp.time inp.volume inp.rPick s) = smoothedGrip inp s := by
    unfold smoothedGrip
    rw [morphUpdate_uHandGrip]
  constructor
  · intro h
    dsimp only [frame2]
    rw [hgrip, if_neg (not_lt.mpr h)]
    exact morphUpdate_currentPositions gen 6 (5/10) 15 allShapes2 config.chaos
      PARTICLE_COUNT inp.time inp.volume inp.rPick s
  · intro h
    dsimp only [frame2]
    rw [hgrip, if_pos h]
    show integrate2 inp.volume inp.pushR
        (morphUpdate gen 6 (5/10) 15 allShapes2 config.chaos PARTICLE_COUNT
          inp.time inp.volume inp.rPick s).currentPositions _ = _
    rw [morphUpdate_currentPositions]

/-- Frame input for a strong implosion: tracked fist at full strength. -/
def inpImplode : FrameInput :=
  { time := 0, volume := 0, rPick := 0, pushR := fun _ => 0,
    leftActive := true, leftIsFist := true, leftStrength := 1 }

/-- Scene state whose grip uniform is saturated at `1`. -/
def stImplode : SceneState :=
  { currentShape := "SPHERE", lastShapeChangeTime := 0,
    targetPositions := fun _ => (1, 0, 0), currentPositions := fun _ => (0, 0, 0),
    uHandGrip := 1 }

/-- Witness for the amended C6: a saturated fist suspends the stepping. -/
theorem grip_gate_signed_witness :
    (frame2 gen0 cfg0 inpImplode stImplode).currentPositions =
      stImplode.currentPositions :=
  (grip_gate_signed gen0 cfg0 inpImplode stImplode).1
    (by norm_num [smoothedGrip, gripValue, inpImplode, stImplode])

/-! ### C7: a fresh config resets the timer to the clock origin -/

/-- A silent frame at scene-clock 16 s. -/
def inpT16 : FrameInput :=
  { time := 16, volume := 0, rPick := 0, pushR := fun _ => 0,
    leftActive := false, leftIsFist := false, leftStrength := 0 }

/-- C7 counterexample: a config assigned at wall-clock `15.9 s` is
auto-morphed away on the very next frame (scene time `16 s`, silent audio),
only `0.1 s < 6 s` after the assignment, because the `useEffect` resets
`lastShapeChangeTime` to the clock origin `0` rather than to the assignment
time: `timeSinceLastChange = 16` already exceeds the force-switch maximum. -/
theorem config_reset_allows_immediate_morph :
    ((16 : ℚ) - 159/10 < 6) ∧
    (applyConfig gen0 cfg0 st0).lastShapeChangeTime = 0 ∧
    (frame2 gen0 cfg0 inpT16 (applyConfig gen0 cfg0 st0)).currentShape ≠
      cfg0.shape := by
  refine ⟨by norm_num, rfl, ?_⟩
  rw [frame2_currentShape]
  have hcond : inpT16.time - (applyConfig gen0 cfg0 st0).lastShapeChangeTime > 6 ∧
      (inpT16.volume > 5/10 ∨
        inpT16.time - (applyConfig gen0 cfg0 st0).lastShapeChangeTime > 15) := by
    refine ⟨by norm_num [inpT16, applyConfig], Or.inr (by norm_num [inpT16, applyConfig])⟩
  dsimp only [morphUpdate]
  rw [if_pos hcond]
  show ((allShapes2.filter
      (fun sh => sh ≠ (applyConfig gen0 cfg0 st0).currentShape))[
        (⌊inpT16.rPick * ((allShapes2.filter
          (fun sh => sh ≠ (applyConfig gen0 cfg0 st0).currentShape)).length : ℚ)⌋).toNat]?).getD
      "undefined" ≠ cfg0.shape
  norm_num [allShapes2, allShapes1, applyConfig, cfg0, inpT16]
  decide

/-- C7 amended: assigning a brand-new `VisualConfig` regenerates the target
buffer for the configured shape, adopts that shape as current, and resets
`lastShapeChangeTime` to the scene-clock origin `0`; consequently the new
shape is protected from auto-morphing only while the scene clock itself is
within the cooldown window — not for a full cooldown window after the
assignment. -/
theorem applyConfig_resets (gen : String → ℕ → ℚ → ℕ → ℚ × ℚ × ℚ)
    (config : VisualConfig) (s : SceneState) :
    (applyConfig gen config s).targetPositions =
      gen config.shape PARTICLE_COUNT config.chaos ∧
    (applyConfig gen config s).currentShape = config.shape ∧
    (applyConfig gen config s).lastShapeChangeTime = 0 ∧
    (∀ gen2 cooldown switchThreshold forceSwitchTime shapes configChaos count
        time volume rPick, time ≤ cooldown →
      morphUpdate gen2 cooldown switchThreshold forceSwitchTime shapes configChaos
        count time volume rPick (applyConfig gen config s) =
        applyConfig gen config s) := by
  refine ⟨rfl, rfl, rfl, ?_⟩
  intro gen2 cooldown switchThreshold forceSwitchTime shapes configChaos count
    time volume rPick htime
  dsimp only [morphUpdate, applyConfig]
  rw [if_neg]
  rintro ⟨h, -⟩
  rw [sub_zero] at h
  exact absurd htime (not_le.mpr h)

/-- Witness for the amended C7: inside the scene-clock cooldown window no
auto-morph touches the freshly assigned state. -/
theorem applyConfig_resets_witness :
    morphUpdate gen0 6 (1/2) 15 allShapes2 (1/2) PARTICLE_COUNT 3 0 0
      (applyConfig gen0 cfg0 st0) = applyConfig gen0 cfg0 st0 :=
  (applyConfig_resets gen0 cfg0 st0).2.2.2 gen0 6 (1/2) 15 allShapes2 (1/2)
    PARTICLE_COUNT 3 0 0 (by norm_num)

/-! ### C4: convergence of the particle integrator -/

/-- Squared distances are nonnegative. -/
theorem distSq_nonneg (a b : ℚ × ℚ × ℚ) : 0 ≤ distSq a b := by
  unfold distSq
  positivity

/-- One interpolation step scales the squared distance to the target by
`(1 - lerpSpeed)²`. -/
theorem distSq_lerpPoint (lerpSpeed : ℚ) (c t : ℚ × ℚ × ℚ) :
    distSq (lerpPoint lerpSpeed c t) t = (1 - lerpSpeed)^2 * distSq c t := by
  unfold distSq lerpPoint
  ring

/-- Below the high-energy threshold the explosion perturbation is the
identity. -/
theorem pushPoint_quiet (volume rnd : ℚ) (p : ℚ × ℚ × ℚ) (h : volume ≤ 8/10) :
    pushPoint volume rnd p = p := if_neg (not_lt.mpr h)

/-- Closed form for the revision-1 chain at volumes with no explosion:
the squared distance to the target decays geometrically. -/
theorem integrateChain1_distSq (volume : ℚ) (hv : volume ≤ 8/10)
    (pushR : ℕ → ℕ → ℚ) (tgt cur : ℕ → ℚ × ℚ × ℚ) (n : ℕ) (i : ℕ) :
    distSq (integrateChain1 volume pushR tgt n cur i) (tgt i) =
      ((1 - (2/100 + volume * (5/100)))^2)^n * distSq (cur i) (tgt i) := by
  induction n with
  | zero => simp [integrateChain1]
  | succ n ih =>
      show distSq (integrate1 volume (pushR n)
        (integrateChain1 volume pushR tgt n cur) tgt i) (tgt i) = _
      unfold integrate1
      rw [pushPoint_quiet _ _ _ hv, distSq_lerpPoint, ih]
      ring

/-- Closed form for the revision-2 chain at volumes with no explosion. -/
theorem integrateChain2_distSq (volume : ℚ) (hv : volume ≤ 8/10)
    (pushR : ℕ → ℕ → ℚ) (tgt cur : ℕ → ℚ × ℚ × ℚ) (n : ℕ) (i : ℕ) :
    distSq (integrateChain2 volume pushR tgt n cur i) (tgt i) =
      ((1 - (3/100 + volume * (8/100)))^2)^n * distSq (cur i) (tgt i) := by
  induction n with
  | zero => simp [integrateChain2]
  | succ n ih =>
      show distSq (integrate2 volume (pushR n)
        (integrateChain2 volume pushR tgt n cur) tgt i) (tgt i) = _
      unfold integrate2
      rw [pushPoint_quiet _ _ _ hv, distSq_lerpPoint, ih]
      ring

/-- Facts about a geometric decay `q^n * d0` with ratio `q ∈ [0, 1)`. -/
theorem geom_decay_facts (q d0 : ℚ) (hq0 : 0 ≤ q) (hq1 : q < 1) (hd : 0 ≤ d0)
    (n : ℕ) :
    q^(n+1) * d0 ≤ q^n * d0 ∧ q^n * d0 ≤ d0 ∧
      (0 < q^n * d0 → q^(n+1) * d0 < q^n * d0) := by
  have hqn : 0 ≤ q^n := pow_nonneg hq0 n
  have hle1 : q^n ≤ 1 := pow_le_one₀ hq0 hq1.le
  refine ⟨?_, ?_, ?_⟩
  · have : q^(n+1) ≤ q^n := pow_le_pow_of_le_one hq0 hq1.le (Nat.le_succ n)
    nlinarith
  · nlinarith
  · intro hpos
    calc q^(n+1) * d0 = q * (q^n * d0) := by ring
    _ < 1 * (q^n * d0) := by exact mul_lt_mul_of_pos_right hq1 hpos
    _ = q^n * d0 := one_mul _

/-- C4 (amended): as long as the constant volume does not exceed the
high-energy threshold `0.8` (so the random explosion never fires and the
interpolation rate is the fixed nonzero `0.02 + 0.05·volume`, respectively
`0.03 + 0.08·volume`), every tick of either revision's particle update
moves every particle monotonically closer to its target in (squared)
Euclidean distance — strictly closer while it has not arrived — and never
beyond the initial current-to-target distance. -/
theorem integration_monotone_no_overshoot (volume : ℚ) (hv0 : 0 ≤ volume)
    (hv : volume ≤ 8/10) (pushR : ℕ → ℕ → ℚ) (tgt cur : ℕ → ℚ × ℚ × ℚ)
    (n : ℕ) (i : ℕ) :
    (distSq (integrateChain1 volume pushR tgt (n+1) cur i) (tgt i) ≤
        distSq (integrateChain1 volume pushR tgt n cur i) (tgt i) ∧
      distSq (integrateChain1 volume pushR tgt n cur i) (tgt i) ≤
        distSq (cur i) (tgt i) ∧
      (0 < distSq (integrateChain1 volume pushR tgt n cur i) (tgt i) →
        distSq (integrateChain1 volume pushR tgt (n+1) cur i) (tgt i) <
          distSq (integrateChain1 volume pushR tgt n cur i) (tgt i))) ∧
    (distSq (integrateChain2 volume pushR tgt (n+1) cur i) (tgt i) ≤
        distSq (integrateChain2 volume pushR tgt n cur i) (tgt i) ∧
      distSq (integrateChain2 volume pushR tgt n cur i) (tgt i) ≤
        distSq (cur i) (tgt i) ∧
      (0 < distSq (integrateChain2 volume pushR tgt n cur i) (tgt i) →
        distSq (integrateChain2 volume pushR tgt (n+1) cur i) (tgt i) <
          distSq (integrateChain2 volume pushR tgt n cur i) (tgt i))) := by
  have hd := distSq_nonneg (cur i) (tgt i)
  constructor
  · have hq0 : (0 : ℚ) ≤ (1 - (2/100 + volume * (5/100)))^2 := by positivity
    have hq1 : (1 - (2/100 + volume * (5/100)))^2 < 1 := by nlinarith
    have hfacts := geom_decay_facts _ _ hq0 hq1 hd n
    rw [integrateChain1_distSq volume hv pushR tgt cur n i,
        integrateChain1_distSq volume hv pushR tgt cur (n+1) i]
    exact hfacts
  · have hq0 : (0 : ℚ) ≤ (1 - (3/100 + volume * (8/100)))^2 := by positivity
    have hq1 : (1 - (3/100 + volume * (8/100)))^2 < 1 := by nlinarith
    have hfacts := geom_decay_facts _ _ hq0 hq1 hd n
    rw [integrateChain2_distSq volume hv pushR tgt cur n i,
        integrateChain2_distSq volume hv pushR tgt cur (n+1) i]
    exact hfacts

/-- All-zero buffer, for the C4 instantiations. -/
def zeroBuf : ℕ → ℚ × ℚ × ℚ := fun _ => (0, 0, 0)

/-- Witness for the amended C4 at volume `1/2`, one particle, one tick. -/
theorem integration_monotone_no_overshoot_witness :
    (0 : ℚ) ≤ 1/2 ∧
      distSq (integrateChain1 (1/2) (fun _ _ => 0) zeroBuf 0 zeroBuf 0)
          (zeroBuf 0) ≤ distSq (zeroBuf 0) (zeroBuf 0) :=
  ⟨by norm_num,
    (integration_monotone_no_overshoot (1/2) (by norm_num) (by norm_num)
      (fun _ _ => 0) zeroBuf zeroBuf 0 0).1.2.1⟩

/-- C4 counterexample: at constant volume `1` the interpolation rate is the
fixed nonzero `0.07`, yet one tick of the revision-1 particle update moves a
particle that sits exactly on its target (the all-zero buffers) away from
it: the `volume > 0.8` explosion adds `(1 - 0.5) · 1 · 0.5 = 0.25` to every
coordinate, overshooting the initial distance `0`. -/
theorem integration_overshoot_at_high_volume :
    distSq (integrateChain1 1 (fun _ _ => 1) zeroBuf 1 zeroBuf 0) (zeroBuf 0) >
      distSq (zeroBuf 0) (zeroBuf 0) := by
  show distSq (integrate1 1 (fun _ => 1) zeroBuf zeroBuf 0) (zeroBuf 0) >
    distSq (zeroBuf 0) (zeroBuf 0)
  norm_num [integrate1, pushPoint, lerpPoint, distSq, zeroBuf]

/-! ### Evaluation lemmas for the partial JavaScript operations -/

/-- Division by a nonzero denominator is defined. -/
theorem jsdiv_eq (a b : ℚ) (hb : b ≠ 0) : jsdiv a b = some (a / b) := if_neg hb

/-- The arc-cosine of an argument in `[-1, 1]` is defined. -/
theorem jsacos_eq (M : MathOracle) (x : ℚ) (h1 : -1 ≤ x) (h2 : x ≤ 1) :
    jsacos M x = some (M.acosVal x) := if_pos ⟨h1, h2⟩

/-- The square root of a nonnegative argument is defined. -/
theorem jsqrt_eq (M : MathOracle) (x : ℚ) (h : 0 ≤ x) :
    jsqrt M x = some (M.sqrtVal x) := if_pos h

/-! ### C8: the treble feature on an empty frame -/

/-- Unfolding of the treble computation. -/
theorem trebleOf_eq (bins : List ℚ) :
    trebleOf bins = (jsdiv (bins.drop ((⌊(bins.length : ℚ) * (7/10)⌋).toNat)).sum
      ((bins.length : ℚ) - (((⌊(bins.length : ℚ) * (7/10)⌋).toNat : ℕ) : ℚ))).bind
      (fun q => some (q / 255)) := rfl

/-- C8 counterexample: on a frame whose frequency-bin array has length `0`
the treble computation divides `0` by `0`: the produced feature is NaN, not
`0` (and in particular not in `[0, 1]`). -/
theorem treble_empty_is_nan : trebleOf [] = none ∧ trebleOf [] ≠ some 0 := by
  have h : trebleOf [] = none := by
    rw [trebleOf_eq]
    norm_num [jsdiv]
  exact ⟨h, by rw [h]; exact fun hc => Option.noConfusion hc⟩

/-- C8 amended: on every frame with a nonempty byte-valued bin array the
treble feature is defined and lies in `[0, 1]`, and the energy feature
`averageFrequency / 255` lies in `[0, 1]` for byte-valued averages; a
zero-length bin array instead yields NaN (`none`) for treble. -/
theorem treble_defined_and_bounded (bins : List ℚ) (hne : bins ≠ [])
    (hb : ∀ b ∈ bins, 0 ≤ b ∧ b ≤ 255) (avg : ℚ) (h0 : 0 ≤ avg)
    (h255 : avg ≤ 255) :
    (∃ t, trebleOf bins = some t ∧ 0 ≤ t ∧ t ≤ 1) ∧
      0 ≤ volumeOf avg ∧ volumeOf avg ≤ 1 := by
  have hn : 0 < bins.length := List.length_pos.mpr hne
  have h1q : (1 : ℚ) ≤ (bins.length : ℚ) := by exact_mod_cast hn
  have hlbn : (⌊(bins.length : ℚ) * (7/10)⌋).toNat < bins.length := by
    have hlt : ⌊(bins.length : ℚ) * (7/10)⌋ < (bins.length : ℤ) := by
      apply Int.floor_lt.mpr
      push_cast
      nlinarith
    have hnn : 0 ≤ ⌊(bins.length : ℚ) * (7/10)⌋ :=
      Int.floor_nonneg.mpr (by positivity)
    omega
  have hd : (0 : ℚ) <
      (bins.length : ℚ) - ((((⌊(bins.length : ℚ) * (7/10)⌋).toNat : ℕ)) : ℚ) := by
    have hc : ((((⌊(bins.length : ℚ) * (7/10)⌋).toNat : ℕ)) : ℚ) < (bins.length : ℚ) := by
      exact_mod_cast hlbn
    linarith
  have hsum0 : 0 ≤ (bins.drop ((⌊(bins.length : ℚ) * (7/10)⌋).toNat)).sum :=
    List.sum_nonneg (fun x hx => (hb x (List.drop_subset _ bins hx)).1)
  have hlen : (((bins.drop ((⌊(bins.length : ℚ) * (7/10)⌋).toNat)).length : ℕ) : ℚ) =
      (bins.length : ℚ) - ((((⌊(bins.length : ℚ) * (7/10)⌋).toNat : ℕ)) : ℚ) := by
    rw [List.length_drop, Nat.cast_sub hlbn.le]
  have hsumle : (bins.drop ((⌊(bins.length : ℚ) * (7/10)⌋).toNat)).sum ≤
      ((bins.length : ℚ) - ((((⌊(bins.length : ℚ) * (7/10)⌋).toNat : ℕ)) : ℚ)) * 255 := by
    have h1 := List.sum_le_card_nsmul
      (bins.drop ((⌊(bins.length : ℚ) * (7/10)⌋).toNat)) (255 : ℚ)
      (fun x hx => (hb x (List.drop_subset _ bins hx)).2)
    rw [nsmul_eq_mul, hlen] at h1
    exact h1
  refine ⟨⟨((bins.drop ((⌊(bins.length : ℚ) * (7/10)⌋).toNat)).sum /
      ((bins.length : ℚ) - ((((⌊(bins.length : ℚ) * (7/10)⌋).toNat : ℕ)) : ℚ))) / 255,
      ?_, by positivity, ?_⟩,
    by unfold volumeOf; positivity,
    by unfold volumeOf; rw [div_le_one (by norm_num)]; exact h255⟩
  · rw [trebleOf_eq, jsdiv_eq _ _ (ne_of_gt hd)]
    rfl
  · rw [div_le_one (by norm_num : (0 : ℚ) < 255), div_le_iff₀ hd]
    linarith

/-- Witness for the amended C8 on a concrete two-bin frame. -/
theorem treble_defined_and_bounded_witness :
    (∃ t, trebleOf [100, 200] = some t ∧ 0 ≤ t ∧ t ≤ 1) ∧
      0 ≤ volumeOf 100 ∧ volumeOf 100 ≤ 1 :=
  treble_defined_and_bounded [100, 200] (by simp)
    (by intro b hb; rcases List.mem_cons.mp hb with h | h
        · norm_num [h]
        · simp only [List.mem_singleton] at h; norm_num [h])
    100 (by norm_num) (by norm_num)

/-! ### C1: every branch produces a defined (non-NaN) point -/

/-- The `SPHERE` branch is defined: the `acos` argument `2·r2 − 1` stays in
`[-1, 1]` for draws in `[0, 1]`. -/
theorem sphereCase_isSome (M : MathOracle) (chaosLevel r1 r2 r3 : ℚ)
    (h0 : 0 ≤ r2) (h1 : r2 ≤ 1) : (sphereCase M chaosLevel r1 r2 r3).isSome := by
  unfold sphereCase
  rw [jsacos_eq M (2 * r2 - 1) (by linarith) (by linarith)]
  rfl

/-- The `GALAXY_SPIRAL` branch is defined: `count ≠ 0` inside the loop,
`arms = 3 + ⌊chaos·4⌋ ≥ 3` for nonnegative chaos, and the `sqrt` argument is
a nonnegative draw. -/
theorem galaxyCase_isSome (M : MathOracle) (count : ℕ) (chaosLevel r1 r2 r3 : ℚ)
    (i : ℕ) (hcq : (count : ℚ) ≠ 0) (hr1 : 0 ≤ r1) (hch : 0 ≤ chaosLevel) :
    (galaxyCase M count chaosLevel r1 r2 r3 i).isSome := by
  have hfl : (0 : ℚ) ≤ jsfloor (chaosLevel * 4) := by
    unfold jsfloor
    exact_mod_cast Int.floor_nonneg.mpr (by positivity)
  have harms : (3 : ℚ) + jsfloor (chaosLevel * 4) ≠ 0 := ne_of_gt (by linarith)
  unfold galaxyCase
  rw [jsdiv_eq _ _ hcq]
  dsimp only [Bind.bind, Option.some_bind]
  rw [jsqrt_eq M _ hr1]
  dsimp only [Bind.bind, Option.some_bind]
  rw [jsdiv_eq _ _ harms]
  dsimp only [Bind.bind, Option.some_bind]
  rfl

/-- The `DNA_HELIX` branch is defined when `count ≠ 0`. -/
theorem dnaCase_isSome (M : MathOracle) (count : ℕ) (chaosLevel r3 : ℚ) (i : ℕ)
    (hcq : (count : ℚ) ≠ 0) : (dnaCase M count chaosLevel r3 i).isSome := by
  unfold dnaCase
  rw [jsdiv_eq _ _ hcq]
  dsimp only [Bind.bind, Option.some_bind]
  rfl

/-- The `PENROSE_TRIANGLE_APPROX` branch is always defined. -/
theorem penroseCase_isSome (chaosLevel r4 r5 r6 : ℚ) (i : ℕ) :
    (penroseCase chaosLevel r4 r5 r6 i).isSome := by
  unfold penroseCase
  split_ifs <;> rfl

/-- The `LIQUID_WAVE` branch is defined for a good oracle and a nonempty
buffer: `cols = ⌊√count⌋ ≥ 1`. -/
theorem liquidCase_isSome (M : MathOracle) (hM : M.Good) (count : ℕ)
    (hcount : 1 ≤ count) (r4 r5 : ℚ) (i : ℕ) :
    (liquidCase M count r4 r5 i).isSome := by
  have h1 : (1 : ℚ) ≤ (count : ℚ) := by exact_mod_cast hcount
  have hsq : (1 : ℚ) ≤ M.sqrtVal (count : ℚ) := hM.2 _ h1
  have hcols : (1 : ℤ) ≤ ⌊M.sqrtVal (count : ℚ)⌋ :=
    Int.le_floor.mpr (by exact_mod_cast hsq)
  have hne : ((⌊M.sqrtVal (count : ℚ)⌋ : ℤ) : ℚ) ≠ 0 := by
    have hge : (1 : ℚ) ≤ ((⌊M.sqrtVal (count : ℚ)⌋ : ℤ) : ℚ) := by exact_mod_cast hcols
    linarith
  unfold liquidCase
  rw [jsqrt_eq M _ (by positivity)]
  dsimp only [Bind.bind, Option.some_bind]
  rw [jsdiv_eq _ _ hne]
  dsimp only [Bind.bind, Option.some_bind]
  rw [jsdiv_eq _ _ hne]
  dsimp only [Bind.bind, Option.some_bind]
  rw [jsdiv_eq _ _ hne]
  dsimp only [Bind.bind, Option.some_bind]
  rfl

/-- The `PULSING_BLACK_HOLE` branch is defined: the core's `acos` argument
stays in `[-1, 1]` and the disk's divisor `dist = 8 + 25·r2 ≥ 8`. -/
theorem blackHoleCase_isSome (M : MathOracle) (count : ℕ) (r1 r2 r4 r5 r6 : ℚ)
    (i : ℕ) (hr2 : 0 ≤ r2) (h5a : 0 ≤ r5) (h5b : r5 ≤ 1) :
    (blackHoleCase M count r1 r2 r4 r5 r6 i).isSome := by
  unfold blackHoleCase
  split_ifs with h
  · rw [jsacos_eq M (2 * r5 - 1) (by linarith) (by linarith)]
    rfl
  · have hdist : (8 : ℚ) + r2 * 25 ≠ 0 := ne_of_gt (by linarith)
    dsimp only []
    rw [jsdiv_eq _ _ hdist]
    dsimp only [Bind.bind, Option.some_bind]
    rfl

/-- Pointwise definedness for revision 1: given a good oracle, nonnegative
chaos and draws in `[0, 1)`, the point of every particle `i < count` is
defined, whatever the kind string. -/
theorem shapePoint1_isSome (M : MathOracle) (hM : M.Good) (type : String)
    (count : ℕ) (chaosLevel : ℚ) (hc0 : 0 ≤ chaosLevel) (R : ℕ → ℚ)
    (hR : ∀ j, 0 ≤ R j ∧ R j < 1) (i : ℕ) (hi : i < count) :
    (shapePoint1 M type count chaosLevel R i).isSome := by
  have hcq : (count : ℚ) ≠ 0 := Nat.cast_ne_zero.mpr (by omega)
  unfold shapePoint1
  split
  · exact sphereCase_isSome M chaosLevel (R 0) (R 1) (R 2) (hR 1).1 (hR 1).2.le
  · exact galaxyCase_isSome M count chaosLevel (R 0) (R 1) (R 2) i hcq (hR 0).1 hc0
  · rfl
  · rfl
  · rfl
  · exact dnaCase_isSome M count chaosLevel (R 2) i hcq
  · rfl
  · exact penroseCase_isSome chaosLevel (R 3) (R 4) (R 5) i
  · rfl
  · rfl
  · rfl
  · rfl
  · exact liquidCase_isSome M hM count (by omega) (R 3) (R 4) i
  · exact blackHoleCase_isSome M count (R 0) (R 1) (R 3) (R 4) (R 5) i (hR 1).1
      (hR 4).1 (hR 4).2.le
  · rfl

/-- Pointwise definedness for revision 2, for every incoming attractor
state (the attractor branches are total). -/
theorem shapeStep2_isSome (M : MathOracle) (hM : M.Good) (type : String)
    (count : ℕ) (chaosLevel : ℚ) (hc0 : 0 ≤ chaosLevel) (R : ℕ → ℚ)
    (hR : ∀ j, 0 ≤ R j ∧ R j < 1) (i : ℕ) (hi : i < count) (st : ℚ × ℚ × ℚ) :
    (shapeStep2 M type count chaosLevel R i st).2.isSome := by
  have hcq : (count : ℚ) ≠ 0 := Nat.cast_ne_zero.mpr (by omega)
  unfold shapeStep2
  split
  · exact sphereCase_isSome M chaosLevel (R 0) (R 1) (R 2) (hR 1).1 (hR 1).2.le
  · exact galaxyCase_isSome M count chaosLevel (R 0) (R 1) (R 2) i hcq (hR 0).1 hc0
  · rfl
  · rfl
  · rfl
  · exact dnaCase_isSome M count chaosLevel (R 2) i hcq
  · rfl
  · exact penroseCase_isSome chaosLevel (R 3) (R 4) (R 5) i
  · rfl
  · rfl
  · rfl
  · rfl
  · exact liquidCase_isSome M hM count (by omega) (R 3) (R 4) i
  · exact blackHoleCase_isSome M count (R 0) (R 1) (R 3) (R 4) (R 5) i (hR 1).1
      (hR 4).1 (hR 4).2.le
  · rfl
  · rfl
  · rfl
  · rfl

/-- Every particle occupies exactly three `Float32Array` slots. -/
theorem tripleList_length (o : Option (ℚ × ℚ × ℚ)) : (tripleList o).length = 3 := by
  cases o with
  | none => rfl
  | some p =>
      rcases p with ⟨x, y, z⟩
      rfl

/-- A defined particle contributes only defined slots. -/
theorem tripleList_isSome (o : Option (ℚ × ℚ × ℚ)) (h : o.isSome) :
    ∀ v ∈ tripleList o, v.isSome := by
  cases o with
  | none => exact absurd h (by simp)
  | some p =>
      rcases p with ⟨x, y, z⟩
      intro v hv
      simp only [tripleList, List.mem_cons, List.not_mem_nil, or_false] at hv
      rcases hv with h1 | h1 | h1 <;> subst h1 <;> rfl

/-- Length of the revision-1 loop output. -/
theorem genLoop1_length (M : MathOracle) (type : String) (count : ℕ)
    (chaosLevel : ℚ) (R : ℕ → ℕ → ℚ) :
    ∀ l : List ℕ, (genLoop1 M type count chaosLevel R l).length = 3 * l.length
  | [] => rfl
  | i :: is => by
      rw [genLoop1, List.length_append, tripleList_length,
        genLoop1_length M type count chaosLevel R is, List.length_cons]
      ring

/-- Length of the revision-2 loop output, for every attractor state. -/
theorem genLoop2_length (M : MathOracle) (type : String) (count : ℕ)
    (chaosLevel : ℚ) (R : ℕ → ℕ → ℚ) :
    ∀ (l : List ℕ) (st : ℚ × ℚ × ℚ),
      (genLoop2 M type count chaosLevel R l st).length = 3 * l.length
  | [], _ => rfl
  | i :: is, st => by
      rw [genLoop2, List.length_append, tripleList_length,
        genLoop2_length M type count chaosLevel R is _, List.length_cons]
      ring

/-- Definedness of the revision-1 loop output. -/
theorem genLoop1_isSome (M : MathOracle) (hM : M.Good) (type : String)
    (count : ℕ) (chaosLevel : ℚ) (hc0 : 0 ≤ chaosLevel) (R : ℕ → ℕ → ℚ)
    (hR : ∀ i j, 0 ≤ R i j ∧ R i j < 1) :
    ∀ l : List ℕ, (∀ i ∈ l, i < count) →
      ∀ v ∈ genLoop1 M type count chaosLevel R l, v.isSome
  | [] => by
      intro _ v hv
      simp [genLoop1] at hv
  | i :: is => by
      intro hl v hv
      rw [genLoop1] at hv
      rcases List.mem_append.mp hv with h | h
      · exact tripleList_isSome _
          (shapePoint1_isSome M hM type count chaosLevel hc0 (R i) (fun j => hR i j)
            i (hl i (List.mem_cons_self i is))) v h
      · exact genLoop1_isSome M hM type count chaosLevel hc0 R hR is
          (fun j hj => hl j (List.mem_cons_of_mem i hj)) v h

/-- Definedness of the revision-2 loop output, for every starting state. -/
theorem genLoop2_isSome (M : MathOracle) (hM : M.Good) (type : String)
    (count : ℕ) (chaosLevel : ℚ) (hc0 : 0 ≤ chaosLevel) (R : ℕ → ℕ → ℚ)
    (hR : ∀ i j, 0 ≤ R i j ∧ R i j < 1) :
    ∀ (l : List ℕ) (st : ℚ × ℚ × ℚ), (∀ i ∈ l, i < count) →
      ∀ v ∈ genLoop2 M type count chaosLevel R l st, v.isSome
  | [], _ => by
      intro _ v hv
      simp [genLoop2] at hv
  | i :: is, st => by
      intro hl v hv
      rw [genLoop2] at hv
      rcases List.mem_append.mp hv with h | h
      · exact tripleList_isSome _
          (shapeStep2_isSome M hM type count chaosLevel hc0 (R i) (fun j => hR i j)
            i (hl i (List.mem_cons_self i is)) st) v h
      · exact genLoop2_isSome M hM type count chaosLevel hc0 R hR is _
          (fun j hj => hl j (List.mem_cons_of_mem i hj)) v h

/-- C1: for every shape-kind string, particle count and chaos level in
`[0, 1]`, both revisions of `getShapePositions` (with any good math oracle
and any `Math.random` stream drawing in `[0, 1)`) fill a buffer of length
exactly `3 × count` in which every slot holds a defined rational — no
sub-expression ever divides by zero, takes `acos` outside `[-1, 1]` or
`sqrt` of a negative, so no slot is NaN or infinite. -/
theorem generate_length_and_finite (M : MathOracle) (hM : M.Good) (type : String)
    (count : ℕ) (chaosLevel : ℚ) (hc0 : 0 ≤ chaosLevel) (hc1 : chaosLevel ≤ 1)
    (R : ℕ → ℕ → ℚ) (hR : ∀ i j, 0 ≤ R i j ∧ R i j < 1) :
    ((getShapePositions1 M type count chaosLevel R).length = 3 * count ∧
      ∀ v ∈ getShapePositions1 M type count chaosLevel R, v.isSome) ∧
    ((getShapePositions2 M type count chaosLevel R).length = 3 * count ∧
      ∀ v ∈ getShapePositions2 M type count chaosLevel R, v.isSome) := by
  refine ⟨⟨?_, ?_⟩, ?_, ?_⟩
  · rw [getShapePositions1, genLoop1_length, List.length_range]
  · exact genLoop1_isSome M hM type count chaosLevel hc0 R hR (List.range count)
      (fun i hi => List.mem_range.mp hi)
  · rw [getShapePositions2, genLoop2_length, List.length_range]
  · exact genLoop2_isSome M hM type count chaosLevel hc0 R hR (List.range count) _
      (fun i hi => List.mem_range.mp hi)

/-- A concrete good oracle for witness instantiations. -/
def oracle0 : MathOracle :=
  { pi := 0, sin := fun _ => 0, cos := fun _ => 0, acosVal := fun _ => 0,
    sqrtVal := fun x => x }

/-- Witness for C1 on a two-particle sphere with the zero draw stream. -/
theorem generate_length_and_finite_witness :
    oracle0.Good ∧
      ((getShapePositions1 oracle0 "SPHERE" 2 0 (fun _ _ => 0)).length = 3 * 2 ∧
        ∀ v ∈ getShapePositions1 oracle0 "SPHERE" 2 0 (fun _ _ => 0), v.isSome) ∧
      ((getShapePositions2 oracle0 "SPHERE" 2 0 (fun _ _ => 0)).length = 3 * 2 ∧
        ∀ v ∈ getShapePositions2 oracle0 "SPHERE" 2 0 (fun _ _ => 0), v.isSome) :=
  ⟨⟨fun x hx => hx, fun x hx => hx⟩,
    generate_length_and_finite oracle0 ⟨fun x hx => hx, fun x hx => hx⟩ "SPHERE" 2 0
      le_rfl zero_le_one (fun _ _ => 0) (fun _ _ => ⟨le_rfl, by norm_num⟩)⟩

/-! ### C9: unrecognized kinds fall back to the uniform cube fill -/

/-- A kind with no dedicated `case` in revision 1 lands in the `default`
branch. -/
theorem shapePoint1_default (M : MathOracle) (type : String)
    (h : type ∉ handledKinds1) (count : ℕ) (chaosLevel : ℚ) (R : ℕ → ℚ) (i : ℕ) :
    shapePoint1 M type count chaosLevel R i = defaultCase (R 0) (R 1) (R 2) := by
  unfold shapePoint1
  split
  · simp [handledKinds1] at h
  · simp [handledKinds1] at h
  · simp [handledKinds1] at h
  · simp [handledKinds1] at h
  · simp [handledKinds1] at h
  · simp [handledKinds1] at h
  · simp [handledKinds1] at h
  · simp [handledKinds1] at h
  · simp [handledKinds1] at h
  · simp [handledKinds1] at h
  · simp [handledKinds1] at h
  · simp [handledKinds1] at h
  · simp [handledKinds1] at h
  · simp [handledKinds1] at h
  · rfl

/-- A kind with no dedicated `case` in revision 2 lands in the `default`
branch and leaves the attractor state unchanged. -/
theorem shapeStep2_default (M : MathOracle) (type : String)
    (h : type ∉ handledKinds2) (count : ℕ) (chaosLevel : ℚ) (R : ℕ → ℚ) (i : ℕ)
    (st : ℚ × ℚ × ℚ) :
    shapeStep2 M type count chaosLevel R i st = (st, defaultCase (R 0) (R 1) (R 2)) := by
  unfold shapeStep2
  split
  · simp [handledKinds2, handledKinds1] at h
  · simp [handledKinds2, handledKinds1] at h
  · simp [handledKinds2, handledKinds1] at h
  · simp [handledKinds2, handledKinds1] at h
  · simp [handledKinds2, handledKinds1] at h
  · simp [handledKinds2, handledKinds1] at h
  · simp [handledKinds2, handledKinds1] at h
  · simp [handledKinds2, handledKinds1] at h
  · simp [handledKinds2, handledKinds1] at h
  · simp [handledKinds2, handledKinds1] at h
  · simp [handledKinds2, handledKinds1] at h
  · simp [handledKinds2, handledKinds1] at h
  · simp [handledKinds2, handledKinds1] at h
  · simp [handledKinds2, handledKinds1] at h
  · simp [handledKinds2, handledKinds1] at h
  · simp [handledKinds2, handledKinds1] at h
  · simp [handledKinds2, handledKinds1] at h
  · rfl

/-- Revision 1's whole buffer for an unhandled kind is the per-particle
cube fill. -/
theorem genLoop1_default (M : MathOracle) (type : String)
    (h : type ∉ handledKinds1) (count : ℕ) (chaosLevel : ℚ) (R : ℕ → ℕ → ℚ) :
    ∀ l : List ℕ, genLoop1 M type count chaosLevel R l =
      l.flatMap (fun i => tripleList (defaultCase (R i 0) (R i 1) (R i 2)))
  | [] => rfl
  | i :: is => by
      rw [genLoop1, shapePoint1_default M type h count chaosLevel (R i) i,
        List.flatMap_cons, genLoop1_default M type h count chaosLevel R is]

/-- Revision 2's whole buffer for an unhandled kind is the same cube fill,
for every attractor state. -/
theorem genLoop2_default (M : MathOracle) (type : String)
    (h : type ∉ handledKinds2) (count : ℕ) (chaosLevel : ℚ) (R : ℕ → ℕ → ℚ) :
    ∀ (l : List ℕ) (st : ℚ × ℚ × ℚ), genLoop2 M type count chaosLevel R l st =
      l.flatMap (fun i => tripleList (defaultCase (R i 0) (R i 1) (R i 2)))
  | [], _ => rfl
  | i :: is, st => by
      rw [genLoop2, shapeStep2_default M type h count chaosLevel (R i) i st]
      rw [List.flatMap_cons, genLoop2_default M type h count chaosLevel R is]

/-- C9: for a shape-kind string having no `case` in either revision (in
particular any string outside the `VisualShape` enumeration), both
revisions of `getShapePositions` return exactly the `default`-branch
uniform cube fill: a buffer of the requested length `3 × count` whose
`i`-th particle is `(map r1 (-15) 15, map r2 (-15) 15, map r3 (-15) 15)` on
that particle's three uniform draws — every slot defined (no error, no NaN)
and inside `[-15, 15]`. -/
theorem unknown_kind_cube_fill (M : MathOracle) (type : String)
    (h1 : type ∉ handledKinds1) (h2 : type ∉ handledKinds2) (count : ℕ)
    (chaosLevel : ℚ) (R : ℕ → ℕ → ℚ) (hR : ∀ i j, 0 ≤ R i j ∧ R i j < 1) :
    getShapePositions1 M type count chaosLevel R =
      (List.range count).flatMap
        (fun i => tripleList (defaultCase (R i 0) (R i 1) (R i 2))) ∧
    getShapePositions2 M type count chaosLevel R =
      getShapePositions1 M type count chaosLevel R ∧
    (getShapePositions1 M type count chaosLevel R).length = 3 * count ∧
    ∀ v ∈ getShapePositions1 M type count chaosLevel R,
      ∃ q, v = some q ∧ -15 ≤ q ∧ q ≤ 15 := by
  have hgen1 : getShapePositions1 M type count chaosLevel R =
      (List.range count).flatMap
        (fun i => tripleList (defaultCase (R i 0) (R i 1) (R i 2))) :=
    genLoop1_default M type h1 count chaosLevel R (List.range count)
  have hgen2 : getShapePositions2 M type count chaosLevel R =
      (List.range count).flatMap
        (fun i => tripleList (defaultCase (R i 0) (R i 1) (R i 2))) :=
    genLoop2_default M type h2 count chaosLevel R (List.range count) _
  refine ⟨hgen1, by rw [hgen1, hgen2], ?_, ?_⟩
  · rw [getShapePositions1, genLoop1_length, List.length_range]
  · intro v hv
    rw [hgen1] at hv
    obtain ⟨i, -, hvi⟩ := List.mem_flatMap.mp hv
    have hbound : ∀ j : ℕ, -15 ≤ map (R i j) (-15) 15 ∧ map (R i j) (-15) 15 ≤ 15 := by
      intro j
      obtain ⟨ha, hb⟩ := hR i j
      unfold map
      constructor <;> nlinarith
    simp only [defaultCase, tripleList, List.mem_cons, List.not_mem_nil,
      or_false] at hvi
    rcases hvi with h | h | h <;> subst h
    · exact ⟨_, rfl, (hbound 0).1, (hbound 0).2⟩
    · exact ⟨_, rfl, (hbound 1).1, (hbound 1).2⟩
    · exact ⟨_, rfl, (hbound 2).1, (hbound 2).2⟩

/-- Witness for C9 on the unrecognized kind string `HYPERCUBE`. -/
theorem unknown_kind_cube_fill_witness :
    getShapePositions1 oracle0 "HYPERCUBE" 1 0 (fun _ _ => 0) =
      (List.range 1).flatMap (fun i => tripleList (defaultCase 0 0 0)) ∧
    getShapePositions2 oracle0 "HYPERCUBE" 1 0 (fun _ _ => 0) =
      getShapePositions1 oracle0 "HYPERCUBE" 1 0 (fun _ _ => 0) ∧
    (getShapePositions1 oracle0 "HYPERCUBE" 1 0 (fun _ _ => 0)).length = 3 * 1 ∧
    ∀ v ∈ getShapePositions1 oracle0 "HYPERCUBE" 1 0 (fun _ _ => 0),
      ∃ q, v = some q ∧ -15 ≤ q ∧ q ≤ 15 :=
  unknown_kind_cube_fill oracle0 "HYPERCUBE" (by decide) (by decide) 1 0
    (fun _ _ => 0) (fun _ _ => ⟨le_rfl, by norm_num⟩)

/-! ### C10: the revision-1 Lorenz branch is deterministic and periodic -/

/-- The revision-1 `LORENZ_ATTRACTOR` point ignores the oracle, the chaos
level and every random draw. -/
theorem shapePoint1_lorenz (M : MathOracle) (count : ℕ) (chaosLevel : ℚ)
    (R : ℕ → ℚ) (i : ℕ) :
    shapePoint1 M "LORENZ_ATTRACTOR" count chaosLevel R i = some (lorenzCase1 i) := rfl

/-- Buffer-level determinism of the revision-1 Lorenz branch. -/
theorem genLoop1_lorenz (M M' : MathOracle) (count count' : ℕ)
    (chaosLevel chaosLevel' : ℚ) (R R' : ℕ → ℕ → ℚ) :
    ∀ l : List ℕ, genLoop1 M "LORENZ_ATTRACTOR" count chaosLevel R l =
      genLoop1 M' "LORENZ_ATTRACTOR" count' chaosLevel' R' l
  | [] => rfl
  | i :: is => by
      rw [genLoop1, genLoop1, shapePoint1_lorenz, shapePoint1_lorenz,
        genLoop1_lorenz M M' count count' chaosLevel chaosLevel' R R' is]

/-- C10: in revision 1, the `LORENZ_ATTRACTOR` buffer is a deterministic
function of the particle count alone — two calls with the same count agree
for every oracle, chaos level and draw stream — because each particle's
point is `0.8 · (x, y, z − 25)` after exactly `100 + (i % 2000)` Euler steps
of the Lorenz system from the fixed start `(0.1, 0, 0)`; in particular
particles whose indices differ by `2000` receive identical positions. -/
theorem lorenz1_deterministic :
    (∀ (M M' : MathOracle) (count : ℕ) (chaosLevel chaosLevel' : ℚ)
        (R R' : ℕ → ℕ → ℚ),
      getShapePositions1 M "LORENZ_ATTRACTOR" count chaosLevel R =
        getShapePositions1 M' "LORENZ_ATTRACTOR" count chaosLevel' R') ∧
    (∀ (M : MathOracle) (count : ℕ) (chaosLevel : ℚ) (R : ℕ → ℚ) (i : ℕ),
      shapePoint1 M "LORENZ_ATTRACTOR" count chaosLevel R i = some (lorenzCase1 i)) ∧
    (∀ i : ℕ, lorenzCase1 i = multiplyScalar (8/10)
      ((lorenzTraj (100 + i % 2000)).1, (lorenzTraj (100 + i % 2000)).2.1,
        (lorenzTraj (100 + i % 2000)).2.2 - 25)) ∧
    (∀ i : ℕ, lorenzCase1 (i + 2000) = lorenzCase1 i) := by
  refine ⟨?_, ?_, ?_, ?_⟩
  · intro M M' count chaosLevel chaosLevel' R R'
    exact genLoop1_lorenz M M' count count chaosLevel chaosLevel' R R'
      (List.range count)
  · intro M count chaosLevel R i
    exact shapePoint1_lorenz M count chaosLevel R i
  · intro i
    rfl
  · intro i
    unfold lorenzCase1
    rw [Nat.add_mod_right]

end Cosmos
